import Mathlib

/-
Verification of the audio decode-and-playback subsystem of the
ai-news-summerizer repository: a shallow embedding of the byte decoder,
the PCM-to-sample converter, the playback controller of `src/App.tsx`,
and the service wrappers of `src/services/geminiService.ts`, together
with theorems settling the specified properties.
-/

set_option maxHeartbeats 1000000

namespace NewsAudio

/-! ## Byte decoder (base64)

The repository imports `decode` from `./utils/audio`, a file whose code is
not part of the sources at hand; the definitions below are therefore
modelled from the specification's contract for the byte decoder. -/

/-- The standard base64 alphabet, as a list of characters. -/
def b64Alphabet : List Char :=
  [ 'A', 'B', 'C', 'D', 'E', 'F', 'G', 'H', 'I', 'J', 'K', 'L', 'M',
    'N', 'O', 'P', 'Q', 'R', 'S', 'T', 'U', 'V', 'W', 'X', 'Y', 'Z',
    'a', 'b', 'c', 'd', 'e', 'f', 'g', 'h', 'i', 'j', 'k', 'l', 'm',
    'n', 'o', 'p', 'q', 'r', 's', 't', 'u', 'v', 'w', 'x', 'y', 'z',
    '0', '1', '2', '3', '4', '5', '6', '7', '8', '9', '+', '/' ]

/-- The character encoding a 6-bit value. -/
def b64Char (v : Nat) : Char := b64Alphabet.getD v 'A'

/-- The 6-bit value of a base64 character, `none` for a character outside
the alphabet. -/
def b64Val (c : Char) : Option Nat := b64Alphabet.indexOf? c

/-- Modelled from the spec: the core of the byte decoder, on a list of
characters. Decodes groups of four base64 characters into groups of three
bytes, handling the `==` and `=` padded final groups; fails with a
`DecodeError` on characters outside the alphabet, on a length that is not
a multiple of four, or on padding in an illegal position. -/
def decodeChars : List Char → Except String (List Nat)
  | [] => Except.ok []
  | c0 :: c1 :: c2 :: c3 :: rest =>
    match b64Val c0, b64Val c1 with
    | some v0, some v1 =>
      if c2 = '=' then
        if c3 = '=' ∧ rest = [] then
          Except.ok [v0 * 4 + v1 / 16]
        else Except.error "DecodeError"
      else
        match b64Val c2 with
        | some v2 =>
          if c3 = '=' then
            if rest = [] then
              Except.ok [v0 * 4 + v1 / 16, v1 % 16 * 16 + v2 / 4]
            else Except.error "DecodeError"
          else
            match b64Val c3 with
            | some v3 =>
              (decodeChars rest).map
                (fun bs => (v0 * 4 + v1 / 16) :: (v1 % 16 * 16 + v2 / 4) ::
                  (v2 % 4 * 64 + v3) :: bs)
            | none => Except.error "DecodeError"
        | none => Except.error "DecodeError"
    | _, _ => Except.error "DecodeError"
  | _ => Except.error "DecodeError"

/-- Modelled from the spec: `decode(base64Text) -> RawByteBuffer`, the byte
decoder of the missing `utils/audio` module. Pure and deterministic; an
empty string yields a zero-length buffer. -/
def decode (s : String) : Except String (List Nat) :=
  decodeChars s.data

/-- The reference base64 encoder on byte lists, used to state the
round-trip property. Encodes groups of three bytes into four characters,
with `=` padding for a final group of one or two bytes. -/
def encodeChars : List Nat → List Char
  | [] => []
  | [b0] => [b64Char (b0 / 4), b64Char (b0 % 4 * 16), '=', '=']
  | [b0, b1] =>
      [b64Char (b0 / 4), b64Char (b0 % 4 * 16 + b1 / 16),
       b64Char (b1 % 16 * 4), '=']
  | b0 :: b1 :: b2 :: rest =>
      b64Char (b0 / 4) :: b64Char (b0 % 4 * 16 + b1 / 16) ::
      b64Char (b1 % 16 * 4 + b2 / 64) :: b64Char (b2 % 64) ::
      encodeChars rest

/-- The reference base64 encoder producing a string. -/
def base64Encode (B : List Nat) : String := String.mk (encodeChars B)

/-! ## PCM-to-sample converter

The repository imports `decodeAudioData` from `./utils/audio`, likewise
missing from the sources at hand; modelled from the specification.
Samples are exact rationals: every value produced is an integer divided
by 32768 = 2^15, a quantity binary floating point represents exactly. -/

/-- The audio output device context: its suspended flag and fixed sample
rate. -/
structure CtxState where
  suspended : Bool
  sampleRate : Nat
deriving DecidableEq

/-- An audio buffer: one array of normalized samples per channel, plus the
sample rate. -/
structure AudioBufferModel where
  channels : List (List ℚ)
  sampleRate : Nat
deriving DecidableEq

/-- The 16-bit little-endian signed integer at frame-sample index `i` of a
raw byte buffer: low byte at position `2*i`, high byte at `2*i+1`,
interpreted in two's complement. -/
def int16At (raw : List Nat) (i : Nat) : Int :=
  let v := raw.getD (2 * i) 0 + 256 * raw.getD (2 * i + 1) 0
  if v < 32768 then (v : Int) else (v : Int) - 65536

/-- The normalized sample at index `i`: the 16-bit integer divided by
32768.0. -/
def pcmSample (raw : List Nat) (i : Nat) : ℚ := (int16At raw i : ℚ) / 32768

/-- Modelled from the spec:
`decodeAudioData(raw, deviceContext, sampleRate, channelCount)` of the
missing `utils/audio` module. Reads sequential 16-bit little-endian signed
integers, divides each by 32768.0, routes them into per-channel arrays by
interleave position, each array `floor(raw.length / (2*channelCount))`
long (a trailing incomplete frame is silently dropped); fails with a
`ConversionError` on a non-positive sample rate or channel count. The
device context is only a compatibility witness and is not mutated. -/
def decodeAudioData (raw : List Nat) (_ctx : CtxState)
    (sampleRate channelCount : Nat) : Except String AudioBufferModel :=
  if sampleRate = 0 ∨ channelCount = 0 then Except.error "ConversionError"
  else
    let frameCount := raw.length / (2 * channelCount)
    Except.ok
      { channels :=
          (List.range channelCount).map (fun j =>
            (List.range frameCount).map (fun i =>
              pcmSample raw (i * channelCount + j)))
        sampleRate := sampleRate }

/-! ## Playback controller and pipeline (src/App.tsx)

The component state of `App` together with the playback refs
(`audioContextRef`, `audioSourceRef`). The field `activeSources` is a
ghost variable listing the identifiers of the low-level sound-producing
instances (`AudioBufferSourceNode`s) that have been started and neither
stopped nor naturally ended; `nextId` supplies fresh identifiers. Device
operations are recorded in an event trace. -/

/-- Device and pipeline events emitted by the controller. A `resume`
event carries whether the issuing call awaited its completion. -/
inductive Ev where
  | resume (awaited : Bool)
  | createSource (id : Nat)
  | connect (id : Nat)
  | startSource (id : Nat) (offset : Nat)
  | detachEnd (id : Nat)
  | stopSource (id : Nat)
  | decodeCall
  | decodeAudioCall
deriving DecidableEq

/-- The state of the `App` component: its `useState` fields, the two refs,
and the ghost fields tracking live sound-producing instances. -/
structure AppState where
  url : String
  summary : String
  isLoading : Bool
  error : Option String
  audioBuffer : Option AudioBufferModel
  isPlaying : Bool
  audioContext : Option CtxState
  audioSource : Option Nat
  activeSources : List Nat
  nextId : Nat
deriving DecidableEq

/-- `stopPlayback` (src/App.tsx lines 36-43): if a source is attached,
clear its `onended` handler, stop it, and null the ref; then set
`isPlaying` to false. Stopping removes the instance from the ghost list of
active instances. -/
def stopPlayback (s : AppState) : AppState × List Ev :=
  match s.audioSource with
  | some id =>
    ({ s with
        audioSource := none
        isPlaying := false
        activeSources := s.activeSources.erase id },
     [Ev.detachEnd id, Ev.stopSource id])
  | none => ({ s with isPlaying := false }, [])

/-- The start branch of `togglePlayback` (src/App.tsx lines 88-103), for a
buffer `buf` and a context `ctx`: issue a non-awaited resume request if the
context is suspended, create a fresh source, bind the buffer, connect it to
the destination, attach the `onended` handler, start it at offset 0, record
it in the ref, and set `isPlaying`. -/
def startPlayback (s : AppState) (ctx : CtxState) : AppState × List Ev :=
  ({ s with
      audioSource := some s.nextId
      isPlaying := true
      activeSources := s.nextId :: s.activeSources
      nextId := s.nextId + 1 },
   (if ctx.suspended then [Ev.resume false] else []) ++
     [Ev.createSource s.nextId, Ev.connect s.nextId,
      Ev.startSource s.nextId 0])

/-- `togglePlayback` (src/App.tsx lines 85-105): when playing, stop;
otherwise, when a buffer and a context are present, start a new source
(resuming the suspended context first, without awaiting); otherwise do
nothing. -/
def togglePlayback (s : AppState) : AppState × List Ev :=
  if s.isPlaying then stopPlayback s
  else
    match s.audioBuffer, s.audioContext with
    | some _, some ctx => startPlayback s ctx
    | _, _ => (s, [])

/-- The natural-end event: the attached source finishes playing and its
`onended` handler (src/App.tsx lines 97-100) runs, setting `isPlaying` to
false and nulling the ref; the instance stops producing sound. With no
attached source (the handler was detached by `stopPlayback`), nothing
happens. -/
def naturalEnd (s : AppState) : AppState :=
  match s.audioSource with
  | some id =>
    { s with
      isPlaying := false
      audioSource := none
      activeSources := s.activeSources.erase id }
  | none => s

/-- The platform suspending the output device context (autoplay policy),
an environment event. -/
def suspendCtx (s : AppState) : AppState :=
  match s.audioContext with
  | some c => { s with audioContext := some { c with suspended := true } }
  | none => s

/-- Whitespace recognized by the trim of the URL check. -/
def isSpaceChar (c : Char) : Bool :=
  c = ' ' ∨ c = '\t' ∨ c = '\n' ∨ c = '\r'

/-- The string-trim used by the URL blank check of `handleSubmit`:
removes leading and trailing whitespace. -/
def trimString (u : String) : String :=
  String.mk
    (((u.data.dropWhile isSpaceChar).reverse.dropWhile isSpaceChar).reverse)

/-! ## Service wrappers (src/services/geminiService.ts) -/

/-- The outcomes of the two remote model calls a pipeline run observes:
the summarization response text (or a thrown error), and the optional
`inlineData.data` payload of the speech response (or a thrown error). -/
structure SubmitEnv where
  summarizeApi : Except Unit String
  ttsApi : Except Unit (Option String)

/-- `summarizeArticleFromUrl` (src/services/geminiService.ts lines 12-24):
returns the response text; any error is caught and rethrown as a fixed
message. -/
def summarizeArticleFromUrl (api : Except Unit String) :
    Except String String :=
  match api with
  | Except.ok t => Except.ok t
  | Except.error _ =>
      Except.error "Failed to get summary from the article URL."

/-- `generateSpeechFromText` (src/services/geminiService.ts lines 26-47):
extracts the optional base64 payload and returns `base64Audio || null`, so
an absent or empty payload becomes `null`; any error is caught and
rethrown as a fixed message. -/
def generateSpeechFromText (api : Except Unit (Option String)) :
    Except String (Option String) :=
  match api with
  | Except.ok payload =>
      Except.ok (match payload with
        | none => none
        | some str => if str = "" then none else some str)
  | Except.error _ =>
      Except.error "Failed to convert summary to audio."

/-- `handleSubmit` (src/App.tsx lines 45-83): on a blank URL, set an error
and return; otherwise set loading, clear the error, summary and buffer,
stop playback, then run summarize → speech → decode → decodeAudioData,
lazily creating the audio context at a 24000 Hz sample rate; any thrown
error is caught into the error field, and loading is cleared. -/
def handleSubmit (s : AppState) (env : SubmitEnv) : AppState × List Ev :=
  if trimString s.url = "" then
    ({ s with error := some "Please enter a valid URL." }, [])
  else
    let s0 := { s with
                isLoading := true
                error := none
                summary := ""
                audioBuffer := none }
    let s1 := (stopPlayback s0).1
    let evs := (stopPlayback s0).2
    match summarizeArticleFromUrl env.summarizeApi with
    | Except.error msg =>
        ({ s1 with error := some msg, isLoading := false }, evs)
    | Except.ok summaryText =>
      let s2 := { s1 with summary := summaryText }
      match generateSpeechFromText env.ttsApi with
      | Except.error msg =>
          ({ s2 with error := some msg, isLoading := false }, evs)
      | Except.ok none =>
          ({ s2 with
             error := some "Failed to generate audio."
             isLoading := false }, evs)
      | Except.ok (some audioB64) =>
        let ctx := s2.audioContext.getD ⟨false, 24000⟩
        let s3 := { s2 with audioContext := some ctx }
        match decode audioB64 with
        | Except.error msg =>
            ({ s3 with error := some msg, isLoading := false },
             evs ++ [Ev.decodeCall])
        | Except.ok bytes =>
          match decodeAudioData bytes ctx 24000 1 with
          | Except.error msg =>
              ({ s3 with error := some msg, isLoading := false },
               evs ++ [Ev.decodeCall, Ev.decodeAudioCall])
          | Except.ok buf =>
              ({ s3 with audioBuffer := some buf, isLoading := false },
               evs ++ [Ev.decodeCall, Ev.decodeAudioCall])

/-- The initial component state: empty fields, no refs, no live
instances. -/
def initState : AppState :=
  { url := "", summary := "", isLoading := false, error := none,
    audioBuffer := none, isPlaying := false, audioContext := none,
    audioSource := none, activeSources := [], nextId := 0 }

/-- One step of the system: a user edit of the URL field, a form submit
with some environment outcome, a click of the play/pause button, an
explicit stop, the natural end of playback, or a platform suspension of
the device context. -/
inductive Step : AppState → AppState → Prop where
  | setUrl (s : AppState) (u : String) : Step s { s with url := u }
  | submit (s : AppState) (env : SubmitEnv) : Step s (handleSubmit s env).1
  | toggle (s : AppState) : Step s (togglePlayback s).1
  | stop (s : AppState) : Step s (stopPlayback s).1
  | natEnd (s : AppState) : Step s (naturalEnd s)
  | suspend (s : AppState) : Step s (suspendCtx s)

/-- A state reachable from the initial state by steps. -/
def Reachable (s : AppState) : Prop :=
  Relation.ReflTransGen Step initState s

/-- The session invariant: the ghost list of live sound-producing
instances is exactly the attached source (and playing) when a source is
attached, and empty otherwise; and a loaded buffer implies a created
device context. -/
def Inv (s : AppState) : Prop :=
  (∀ id, s.audioSource = some id →
    s.isPlaying = true ∧ s.activeSources = [id]) ∧
  (s.audioSource = none → s.activeSources = []) ∧
  (s.audioBuffer.isSome → s.audioContext.isSome)

/-- A pipeline environment in which both remote calls succeed and the
speech payload is the base64 text of one byte. -/
def envOk : SubmitEnv :=
  { summarizeApi := Except.ok "sum", ttsApi := Except.ok (some "QQ==") }

/-- The state after a successful pipeline run from the initial state with
a nonblank URL: a buffer is loaded and nothing is playing. -/
def loadedState : AppState := (handleSubmit { initState with url := "u" } envOk).1

/-- The state after pressing play on the loaded state. -/
def playingState : AppState := (togglePlayback loadedState).1

/-- A concrete Idle state holding a decoded buffer whose device context
the platform has suspended. -/
def suspendedIdle : AppState :=
  { url := "u", summary := "sum", isLoading := false, error := none,
    audioBuffer := some ⟨[[]], 24000⟩, isPlaying := false,
    audioContext := some ⟨true, 24000⟩, audioSource := none,
    activeSources := [], nextId := 0 }

/-- A concrete Playing state with one attached, live source. -/
def cPlaying : AppState :=
  { url := "u", summary := "sum", isLoading := false, error := none,
    audioBuffer := some ⟨[[]], 24000⟩, isPlaying := true,
    audioContext := some ⟨false, 24000⟩, audioSource := some 0,
    activeSources := [0], nextId := 1 }

/-- A pipeline environment whose summarization call throws. -/
def envSumFail : SubmitEnv :=
  { summarizeApi := Except.error (), ttsApi := Except.ok none }

/-- A pipeline environment whose speech call reports no audio payload. -/
def envNoAudio : SubmitEnv :=
  { summarizeApi := Except.ok "t", ttsApi := Except.ok none }

/-- A pipeline environment whose speech call reports an empty payload. -/
def envEmptyAudio : SubmitEnv :=
  { summarizeApi := Except.ok "t", ttsApi := Except.ok (some "") }

/-! ## Theorems: byte decoder -/

/-- Every 6-bit value decodes back from its alphabet character. -/
theorem b64Val_b64Char_fin : ∀ v : Fin 64, b64Val (b64Char v.val) = some v.val := by
  decide

/-- The padding character is outside the alphabet. -/
theorem b64Val_pad : b64Val '=' = none := by decide

/-- Alphabet characters round-trip through their 6-bit values. -/
theorem b64Val_b64Char {v : Nat} (h : v < 64) : b64Val (b64Char v) = some v :=
  b64Val_b64Char_fin ⟨v, h⟩

/-- No alphabet character is the padding character. -/
theorem b64Char_ne_pad {v : Nat} (h : v < 64) : b64Char v ≠ '=' := by
  intro heq
  have h1 := b64Val_b64Char h
  rw [heq, b64Val_pad] at h1
  exact Option.noConfusion h1

/-- Decoding inverts encoding, on the character-list core. -/
theorem decodeChars_encodeChars :
    ∀ B : List Nat, (∀ b ∈ B, b < 256) →
      decodeChars (encodeChars B) = Except.ok B := by
  intro B
  induction B using encodeChars.induct with
  | case1 =>
    intro _
    simp [encodeChars, decodeChars]
  | case2 b0 =>
    intro hb
    have h0 : b0 < 256 := hb b0 (by simp)
    have hv0 : b0 / 4 < 64 := by omega
    have hv1 : b0 % 4 * 16 < 64 := by omega
    simp [encodeChars, decodeChars, b64Val_b64Char hv0, b64Val_b64Char hv1,
      b64Char_ne_pad hv0, b64Char_ne_pad hv1]
    omega
  | case3 b0 b1 =>
    intro hb
    have h0 : b0 < 256 := hb b0 (by simp)
    have h1 : b1 < 256 := hb b1 (by simp)
    have hv0 : b0 / 4 < 64 := by omega
    have hv1 : b0 % 4 * 16 + b1 / 16 < 64 := by omega
    have hv2 : b1 % 16 * 4 < 64 := by omega
    simp [encodeChars, decodeChars, b64Val_b64Char hv0, b64Val_b64Char hv1,
      b64Val_b64Char hv2, b64Char_ne_pad hv0, b64Char_ne_pad hv1,
      b64Char_ne_pad hv2]
    constructor <;> omega
  | case4 b0 b1 b2 rest ih =>
    intro hb
    have h0 : b0 < 256 := hb b0 (by simp)
    have h1 : b1 < 256 := hb b1 (by simp)
    have h2 : b2 < 256 := hb b2 (by simp)
    have hv0 : b0 / 4 < 64 := by omega
    have hv1 : b0 % 4 * 16 + b1 / 16 < 64 := by omega
    have hv2 : b1 % 16 * 4 + b2 / 64 < 64 := by omega
    have hv3 : b2 % 64 < 64 := by omega
    have hrest : ∀ b ∈ rest, b < 256 := fun b hbm => hb b (by simp [hbm])
    simp [encodeChars, decodeChars, b64Val_b64Char hv0, b64Val_b64Char hv1,
      b64Val_b64Char hv2, b64Val_b64Char hv3, b64Char_ne_pad hv0,
      b64Char_ne_pad hv1, b64Char_ne_pad hv2, b64Char_ne_pad hv3,
      ih hrest, Except.map]
    refine ⟨by omega, by omega, by omega⟩

/-- C9: for any valid raw byte buffer B of even length, decoding the
base64 encoding of B reconstructs B byte for byte. -/
theorem c9_decode_base64Encode_roundtrip (B : List Nat)
    (hB : ∀ b ∈ B, b < 256) (_hEven : B.length % 2 = 0) :
    decode (base64Encode B) = Except.ok B :=
  decodeChars_encodeChars B hB

/-- Witness for C9 at the concrete buffer `[65, 66]`. -/
theorem c9_decode_base64Encode_roundtrip_witness :
    (∀ b ∈ ([65, 66] : List Nat), b < 256) ∧
      ([65, 66] : List Nat).length % 2 = 0 ∧
      decode (base64Encode [65, 66]) = Except.ok [65, 66] :=
  ⟨by decide, by decide,
    c9_decode_base64Encode_roundtrip [65, 66] (by decide) (by decide)⟩

/-! ## Theorems: PCM-to-sample converter -/

/-- Every byte read from a byte buffer is below 256, the default 0
included. -/
theorem getD_lt_256 {raw : List Nat} (hb : ∀ b ∈ raw, b < 256) (n : Nat) :
    raw.getD n 0 < 256 := by
  rcases h : raw[n]? with _ | b
  · simp [List.getD_eq_getElem?_getD, h]
  · have hm : b ∈ raw := List.getElem?_mem h
    rw [List.getD_eq_getElem?_getD, h]
    exact hb b hm

/-- The 16-bit integers read from a byte buffer lie in the signed 16-bit
range. -/
theorem int16At_bounds {raw : List Nat} (hb : ∀ b ∈ raw, b < 256)
    (i : Nat) : -32768 ≤ int16At raw i ∧ int16At raw i < 32768 := by
  have h1 := getD_lt_256 hb (2 * i)
  have h2 := getD_lt_256 hb (2 * i + 1)
  simp only [int16At]
  split <;> omega

/-- Normalized samples lie in the interval from -1.0 inclusive to 1.0
exclusive. -/
theorem pcmSample_bounds {raw : List Nat} (hb : ∀ b ∈ raw, b < 256)
    (i : Nat) : -1 ≤ pcmSample raw i ∧ pcmSample raw i < 1 := by
  obtain ⟨hlo, hhi⟩ := int16At_bounds hb i
  unfold pcmSample
  constructor
  · rw [le_div_iff₀ (by norm_num : (0 : ℚ) < 32768)]
    have : (-32768 : ℚ) ≤ (int16At raw i : ℚ) := by exact_mod_cast hlo
    linarith
  · rw [div_lt_one (by norm_num : (0 : ℚ) < 32768)]
    exact_mod_cast hhi

/-- Reading an in-range index of a map over a range. -/
theorem getD_map_range {α : Type} {n j : Nat} (f : Nat → α) (d : α)
    (h : j < n) : ((List.range n).map f).getD j d = f j := by
  simp [List.getD, List.getElem?_map, List.getElem?_range, h]

/-- C2: for every raw byte buffer and channel count at least 1,
decodeAudioData succeeds, its channel arrays are all exactly
`floor(L / (2*C))` long, every value is the sequential 16-bit
little-endian signed integer divided by 32768.0 and lies in the interval
from -1.0 inclusive to 1.0 exclusive, and a trailing incomplete frame is
dropped, yielding exactly k frames per channel. -/
theorem c2_decodeAudioData_spec (raw : List Nat) (ctx : CtxState)
    (sr C : Nat) (hb : ∀ b ∈ raw, b < 256) (hC : 1 ≤ C) (hsr : 0 < sr) :
    ∃ buf, decodeAudioData raw ctx sr C = Except.ok buf ∧
      buf.channels.length = C ∧
      (∀ ch ∈ buf.channels, ch.length = raw.length / (2 * C)) ∧
      (∀ ch ∈ buf.channels, ∀ q ∈ ch, -1 ≤ q ∧ q < 1) ∧
      (∀ j, j < C → ∀ i, i < raw.length / (2 * C) →
        (buf.channels.getD j []).getD i 0 =
          (int16At raw (i * C + j) : ℚ) / 32768) ∧
      (∀ k r, raw.length = 2 * C * k + r → r < 2 * C →
        raw.length / (2 * C) = k) := by
  refine ⟨⟨(List.range C).map (fun j =>
      (List.range (raw.length / (2 * C))).map (fun i =>
        pcmSample raw (i * C + j))), sr⟩, ?_, ?_, ?_, ?_, ?_, ?_⟩
  · unfold decodeAudioData
    rw [if_neg (by omega)]
  · simp
  · intro ch hch
    simp only [List.mem_map, List.mem_range] at hch
    obtain ⟨j, _, rfl⟩ := hch
    simp
  · intro ch hch q hq
    simp only [List.mem_map, List.mem_range] at hch
    obtain ⟨j, _, rfl⟩ := hch
    simp only [List.mem_map, List.mem_range] at hq
    obtain ⟨i, _, rfl⟩ := hq
    exact pcmSample_bounds hb (i * C + j)
  · intro j hj i hi
    rw [getD_map_range _ _ hj, getD_map_range _ _ hi]
    rfl
  · intro k r hlen hr
    rw [hlen, Nat.add_comm, Nat.mul_comm 2 C]
    rw [Nat.mul_comm (C * 2) k, Nat.add_mul_div_right _ _ (by omega : 0 < C * 2)]
    rw [Nat.div_eq_of_lt (by omega)]
    omega

/-- Witness for C2 at the concrete buffer from the specification's
scenario: bytes 0x00 0x80 0xFF 0x7F, one channel at 24000 Hz. -/
theorem c2_decodeAudioData_spec_witness :
    (∀ b ∈ ([0, 128, 255, 127] : List Nat), b < 256) ∧ 1 ≤ 1 ∧
      0 < 24000 ∧
      (∃ buf, decodeAudioData [0, 128, 255, 127] ⟨false, 24000⟩ 24000 1 =
          Except.ok buf ∧
        buf.channels.length = 1 ∧
        (∀ ch ∈ buf.channels,
          ch.length = ([0, 128, 255, 127] : List Nat).length / (2 * 1)) ∧
        (∀ ch ∈ buf.channels, ∀ q ∈ ch, -1 ≤ q ∧ q < 1) ∧
        (∀ j, j < 1 → ∀ i,
            i < ([0, 128, 255, 127] : List Nat).length / (2 * 1) →
          (buf.channels.getD j []).getD i 0 =
            (int16At [0, 128, 255, 127] (i * 1 + j) : ℚ) / 32768) ∧
        (∀ k r, ([0, 128, 255, 127] : List Nat).length = 2 * 1 * k + r →
          r < 2 * 1 → ([0, 128, 255, 127] : List Nat).length / (2 * 1) = k)) :=
  ⟨by decide, le_refl 1, by norm_num,
    c2_decodeAudioData_spec [0, 128, 255, 127] ⟨false, 24000⟩ 24000 1
      (by decide) (le_refl 1) (by norm_num)⟩

/-! ## Theorems: playback controller session invariant -/

/-- The initial state satisfies the session invariant. -/
theorem inv_init : Inv initState := by
  refine ⟨?_, ?_, ?_⟩ <;> simp [initState, Inv]

/-- Stopping playback leaves no attached source and clears `isPlaying`. -/
theorem stopPlayback_state (s : AppState) :
    (stopPlayback s).1.audioSource = none ∧
      (stopPlayback s).1.isPlaying = false := by
  unfold stopPlayback
  cases s.audioSource <;> simp

/-- `stopPlayback` preserves the session invariant. -/
theorem stopPlayback_inv (s : AppState) (h : Inv s) :
    Inv (stopPlayback s).1 := by
  obtain ⟨h1, h2, h3⟩ := h
  unfold stopPlayback
  rcases hs : s.audioSource with _ | id
  · exact ⟨by simp, fun _ => h2 hs, h3⟩
  · refine ⟨by simp, fun _ => ?_, h3⟩
    simp [(h1 id hs).2]

/-- Under the invariant, stopping playback empties the ghost list of live
instances. -/
theorem stopPlayback_active (s : AppState) (h : Inv s) :
    (stopPlayback s).1.activeSources = [] := by
  have h' := stopPlayback_inv s h
  exact h'.2.1 (stopPlayback_state s).1

/-- `stopPlayback` only touches the source ref, the playing flag and the
ghost list. -/
theorem stopPlayback_preserves (t : AppState) :
    (stopPlayback t).1.audioBuffer = t.audioBuffer ∧
      (stopPlayback t).1.audioContext = t.audioContext ∧
      (stopPlayback t).1.url = t.url ∧
      (stopPlayback t).1.summary = t.summary ∧
      (stopPlayback t).1.error = t.error ∧
      (stopPlayback t).1.isLoading = t.isLoading ∧
      (stopPlayback t).1.nextId = t.nextId := by
  unfold stopPlayback
  cases t.audioSource <;> simp

/-- `togglePlayback` preserves the session invariant. -/
theorem togglePlayback_inv (s : AppState) (h : Inv s) :
    Inv (togglePlayback s).1 := by
  obtain ⟨h1, h2, h3⟩ := h
  unfold togglePlayback
  by_cases hp : s.isPlaying = true
  · simpa [hp] using stopPlayback_inv s ⟨h1, h2, h3⟩
  · have hsrc : s.audioSource = none := by
      rcases hs : s.audioSource with _ | id
      · rfl
      · exact absurd (h1 id hs).1 hp
    have hact : s.activeSources = [] := h2 hsrc
    rw [if_neg hp]
    rcases hb : s.audioBuffer with _ | buf
    · exact ⟨h1, h2, h3⟩
    · rcases hc : s.audioContext with _ | ctx
      · exact ⟨h1, h2, h3⟩
      · refine ⟨fun id hid => ?_, fun hnone => ?_, fun _ => ?_⟩
        · have hid' : s.nextId = id := by simpa [startPlayback] using hid
          subst hid'
          exact ⟨rfl, by simp [startPlayback, hact]⟩
        · exact absurd hnone (by simp [startPlayback])
        · simp [startPlayback, hc]

/-- The natural-end transition preserves the session invariant. -/
theorem naturalEnd_inv (s : AppState) (h : Inv s) : Inv (naturalEnd s) := by
  obtain ⟨h1, h2, h3⟩ := h
  unfold naturalEnd
  rcases hs : s.audioSource with _ | id
  · exact ⟨h1, h2, h3⟩
  · refine ⟨by simp, fun _ => ?_, h3⟩
    simp [(h1 id hs).2]

/-- A platform suspension preserves the session invariant. -/
theorem suspendCtx_inv (s : AppState) (h : Inv s) : Inv (suspendCtx s) := by
  obtain ⟨h1, h2, h3⟩ := h
  unfold suspendCtx
  rcases hc : s.audioContext with _ | c
  · exact ⟨h1, h2, h3⟩
  · exact ⟨h1, h2, fun _ => by simp⟩

/-- `handleSubmit` preserves the session invariant. -/
theorem handleSubmit_inv (s : AppState) (env : SubmitEnv) (h : Inv s) :
    Inv (handleSubmit s env).1 := by
  obtain ⟨h1, h2, h3⟩ := h
  have hs0 : Inv { s with
      isLoading := true
      error := none
      summary := ""
      audioBuffer := none } := ⟨h1, h2, by simp⟩
  obtain ⟨g1, g2, _⟩ := stopPlayback_inv _ hs0
  have gbuf := (stopPlayback_preserves { s with
      isLoading := true
      error := none
      summary := ""
      audioBuffer := none }).1
  unfold handleSubmit
  by_cases hu : trimString s.url = ""
  · simp only [hu, ite_true]
    exact ⟨h1, h2, h3⟩
  · rw [if_neg hu]
    dsimp only
    split
    · exact ⟨g1, g2, by simp [gbuf]⟩
    · split
      · exact ⟨g1, g2, by simp [gbuf]⟩
      · exact ⟨g1, g2, by simp [gbuf]⟩
      · split
        · exact ⟨g1, g2, by simp⟩
        · split
          · exact ⟨g1, g2, by simp⟩
          · exact ⟨g1, g2, by simp⟩

/-- Every step of the system preserves the session invariant. -/
theorem step_inv {s s' : AppState} (h : Inv s) (hstep : Step s s') :
    Inv s' := by
  cases hstep with
  | setUrl u =>
    obtain ⟨h1, h2, h3⟩ := h
    exact ⟨h1, h2, h3⟩
  | submit env => exact handleSubmit_inv s env h
  | toggle => exact togglePlayback_inv s h
  | stop => exact stopPlayback_inv s h
  | natEnd => exact naturalEnd_inv s h
  | suspend => exact suspendCtx_inv s h

/-- Every reachable state satisfies the session invariant. -/
theorem reachable_inv {s : AppState} (h : Reachable s) : Inv s := by
  induction h with
  | refl => exact inv_init
  | tail _ hstep ih => exact step_inv ih hstep

/-- The buffer-loaded state is reachable: set a URL, then run a
successful pipeline. -/
theorem reachable_loadedState : Reachable loadedState :=
  Relation.ReflTransGen.tail
    (Relation.ReflTransGen.tail Relation.ReflTransGen.refl
      (Step.setUrl initState "u"))
    (Step.submit { initState with url := "u" } envOk)

/-- The playing state is reachable: press play on the loaded state. -/
theorem reachable_playingState : Reachable playingState :=
  Relation.ReflTransGen.tail reachable_loadedState (Step.toggle loadedState)

/-! ## Theorems: playback controller claims -/

/-- C1: in every reachable state there is at most one active
sound-producing instance bound to the output device context; in
particular any operation that starts playback while an instance is active
has terminated the previous instance first. -/
theorem c1_single_active_instance (s : AppState) (h : Reachable s) :
    s.activeSources.length ≤ 1 := by
  obtain ⟨h1, h2, _⟩ := reachable_inv h
  rcases hs : s.audioSource with _ | id
  · simp [h2 hs]
  · simp [(h1 id hs).2]

/-- Witness for C1 at the reachable state with active playback. -/
theorem c1_single_active_instance_witness :
    Reachable playingState ∧ playingState.activeSources.length ≤ 1 :=
  ⟨reachable_playingState,
    c1_single_active_instance playingState reachable_playingState⟩

/-- C3: toggle behaves as stop whenever the controller is Playing, and
whenever it is Idle with a buffer available it behaves as start — binding
the buffer to a fresh source, connecting it to the device output,
beginning playback at offset 0 and transitioning to Playing. -/
theorem c3_toggle_behaviour (s : AppState) (h : Reachable s) :
    (s.isPlaying = true → togglePlayback s = stopPlayback s) ∧
    (∀ buf, s.isPlaying = false → s.audioBuffer = some buf →
      ∃ ctx, s.audioContext = some ctx ∧
        togglePlayback s = startPlayback s ctx ∧
        (togglePlayback s).1.isPlaying = true ∧
        (togglePlayback s).1.audioSource = some s.nextId ∧
        Ev.connect s.nextId ∈ (togglePlayback s).2 ∧
        Ev.startSource s.nextId 0 ∈ (togglePlayback s).2) := by
  obtain ⟨_, _, h3⟩ := reachable_inv h
  constructor
  · intro hp
    unfold togglePlayback
    rw [if_pos hp]
  · intro buf hp hb
    rcases hc : s.audioContext with _ | ctx
    · exact absurd (h3 (by simp [hb])) (by simp [hc])
    · have htog : togglePlayback s = startPlayback s ctx := by
        unfold togglePlayback
        rw [if_neg (by simp [hp]), hb, hc]
      refine ⟨ctx, rfl, htog, ?_, ?_, ?_, ?_⟩
      · rw [htog]
        rfl
      · rw [htog]
        rfl
      · rw [htog]
        cases ctx.suspended <;> simp [startPlayback]
      · rw [htog]
        cases ctx.suspended <;> simp [startPlayback]

/-- Witness for C3 at the reachable buffer-loaded state. -/
theorem c3_toggle_behaviour_witness :
    Reachable loadedState ∧
      ((loadedState.isPlaying = true →
          togglePlayback loadedState = stopPlayback loadedState) ∧
        (∀ buf, loadedState.isPlaying = false →
          loadedState.audioBuffer = some buf →
          ∃ ctx, loadedState.audioContext = some ctx ∧
            togglePlayback loadedState = startPlayback loadedState ctx ∧
            (togglePlayback loadedState).1.isPlaying = true ∧
            (togglePlayback loadedState).1.audioSource =
              some loadedState.nextId ∧
            Ev.connect loadedState.nextId ∈ (togglePlayback loadedState).2 ∧
            Ev.startSource loadedState.nextId 0 ∈
              (togglePlayback loadedState).2)) :=
  ⟨reachable_loadedState, c3_toggle_behaviour loadedState reachable_loadedState⟩

/-- C4 is refuted: at the concrete Idle state whose device context is
suspended, toggling does begin playback, but the resume request is issued
fire-and-forget — no awaited resume ever appears in the trace. -/
theorem c4_counterexample :
    (togglePlayback suspendedIdle).2 =
      [Ev.resume false, Ev.createSource 0, Ev.connect 0,
       Ev.startSource 0 0] ∧
      Ev.resume true ∉ (togglePlayback suspendedIdle).2 ∧
      Ev.startSource 0 0 ∈ (togglePlayback suspendedIdle).2 :=
  ⟨rfl, by decide, by decide⟩

/-- C4 (amended): whenever start is invoked from Idle with an available
buffer and the device context reports a suspended state, the controller
issues a resume request on the device context before beginning playback
of the new source, but does not await its completion. -/
theorem c4_resume_issued_before_start (s : AppState)
    (buf : AudioBufferModel) (ctx : CtxState) (hp : s.isPlaying = false)
    (hb : s.audioBuffer = some buf) (hc : s.audioContext = some ctx)
    (hs : ctx.suspended = true) :
    (togglePlayback s).2 =
      [Ev.resume false, Ev.createSource s.nextId, Ev.connect s.nextId,
       Ev.startSource s.nextId 0] := by
  unfold togglePlayback
  rw [if_neg (by simp [hp]), hb, hc]
  simp [startPlayback, hs]

/-- Witness for the amended C4 at the concrete suspended Idle state. -/
theorem c4_resume_issued_before_start_witness :
    suspendedIdle.isPlaying = false ∧
      suspendedIdle.audioBuffer = some ⟨[[]], 24000⟩ ∧
      suspendedIdle.audioContext = some ⟨true, 24000⟩ ∧
      (⟨true, 24000⟩ : CtxState).suspended = true ∧
      (togglePlayback suspendedIdle).2 =
        [Ev.resume false, Ev.createSource suspendedIdle.nextId,
         Ev.connect suspendedIdle.nextId,
         Ev.startSource suspendedIdle.nextId 0] :=
  ⟨rfl, rfl, rfl, rfl,
    c4_resume_issued_before_start suspendedIdle ⟨[[]], 24000⟩
      ⟨true, 24000⟩ rfl rfl rfl rfl⟩

/-- Stopping from an Idle controller state changes nothing at all. -/
theorem stopPlayback_idle_noop (s : AppState) (hp : s.isPlaying = false)
    (hs : s.audioSource = none) : stopPlayback s = (s, []) := by
  rcases s with ⟨u, sm, ld, er, ab, ip, ctx, src, act, nid⟩
  dsimp only at hp hs
  subst hp
  subst hs
  rfl

/-- C5: stop from Playing detaches the natural-end callback before
halting the instance (the trace is the detach event followed by the stop
event), releases the session and transitions to Idle; stop from Idle —
including re-entrantly right after the natural-end handler has run — is a
no-op that leaves the state Idle. -/
theorem c5_stop_behaviour (s : AppState) :
    (∀ id, s.audioSource = some id →
      (stopPlayback s).2 = [Ev.detachEnd id, Ev.stopSource id] ∧
      (stopPlayback s).1.audioSource = none ∧
      (stopPlayback s).1.isPlaying = false ∧
      (stopPlayback s).1.activeSources = s.activeSources.erase id) ∧
    (s.isPlaying = false → s.audioSource = none →
      stopPlayback s = (s, [])) ∧
    (∀ id, s.audioSource = some id →
      stopPlayback (naturalEnd s) = (naturalEnd s, [])) := by
  refine ⟨fun id hid => ?_, fun hp hs => stopPlayback_idle_noop s hp hs,
    fun id hid => ?_⟩
  · unfold stopPlayback
    rw [hid]
    exact ⟨rfl, rfl, rfl, rfl⟩
  · have h1 : (naturalEnd s).isPlaying = false := by
      unfold naturalEnd
      rw [hid]
    have h2 : (naturalEnd s).audioSource = none := by
      unfold naturalEnd
      rw [hid]
    exact stopPlayback_idle_noop _ h1 h2

/-- Witness for C5 at the concrete Playing state. -/
theorem c5_stop_behaviour_witness :
    cPlaying.audioSource = some 0 ∧
      (stopPlayback cPlaying).2 = [Ev.detachEnd 0, Ev.stopSource 0] ∧
      (stopPlayback cPlaying).1.audioSource = none ∧
      (stopPlayback cPlaying).1.isPlaying = false ∧
      (stopPlayback cPlaying).1.activeSources =
        cPlaying.activeSources.erase 0 ∧
      stopPlayback (naturalEnd cPlaying) = (naturalEnd cPlaying, []) :=
  ⟨rfl, ((c5_stop_behaviour cPlaying).1 0 rfl).1,
    ((c5_stop_behaviour cPlaying).1 0 rfl).2.1,
    ((c5_stop_behaviour cPlaying).1 0 rfl).2.2.1,
    ((c5_stop_behaviour cPlaying).1 0 rfl).2.2.2,
    (c5_stop_behaviour cPlaying).2.2 0 rfl⟩

/-- C6 is refuted: toggling from Idle with no buffer available — here at
the concrete initial state — silently does nothing: the state is
unchanged, no device operation happens and no error of any kind is
raised, where the claim demands a PlaybackError. -/
theorem c6_counterexample :
    togglePlayback initState = (initState, []) ∧
      (togglePlayback initState).1.error = none :=
  ⟨rfl, rfl⟩

/-- C6 (amended): start invoked from Idle with no buffer available is a
silent no-op — the state is left unchanged and no event or error is
produced; no PlaybackError is raised. -/
theorem c6_start_without_buffer_noop (s : AppState)
    (hp : s.isPlaying = false) (hb : s.audioBuffer = none) :
    togglePlayback s = (s, []) := by
  unfold togglePlayback
  rw [if_neg (by simp [hp]), hb]

/-- Witness for the amended C6 at the concrete initial state. -/
theorem c6_start_without_buffer_noop_witness :
    initState.isPlaying = false ∧ initState.audioBuffer = none ∧
      togglePlayback initState = (initState, []) :=
  ⟨rfl, rfl, c6_start_without_buffer_noop initState rfl rfl⟩

/-! ## Theorems: pipeline error handling -/

/-- The trace of a stop is empty or the detach-stop pair. -/
theorem stopPlayback_trace (t : AppState) :
    (stopPlayback t).2 = [] ∨
      ∃ id, (stopPlayback t).2 = [Ev.detachEnd id, Ev.stopSource id] := by
  unfold stopPlayback
  rcases ht : t.audioSource with _ | id
  · exact Or.inl rfl
  · exact Or.inr ⟨id, rfl⟩

/-- After any pipeline run from a nonblank URL the controller is Idle
with no attached source and loading cleared, and either the buffer was
discarded or the run succeeded with no error. -/
theorem handleSubmit_post (s : AppState) (env : SubmitEnv)
    (hu : trimString s.url ≠ "") :
    (handleSubmit s env).1.isPlaying = false ∧
      (handleSubmit s env).1.audioSource = none ∧
      (handleSubmit s env).1.isLoading = false ∧
      ((handleSubmit s env).1.audioBuffer = none ∨
        (handleSubmit s env).1.error = none) := by
  have hstop := stopPlayback_state { s with
      isLoading := true
      error := none
      summary := ""
      audioBuffer := none }
  have hpres := stopPlayback_preserves { s with
      isLoading := true
      error := none
      summary := ""
      audioBuffer := none }
  unfold handleSubmit
  rw [if_neg hu]
  dsimp only
  split
  · exact ⟨hstop.2, hstop.1, rfl, Or.inl hpres.1⟩
  · split
    · exact ⟨hstop.2, hstop.1, rfl, Or.inl hpres.1⟩
    · exact ⟨hstop.2, hstop.1, rfl, Or.inl hpres.1⟩
    · split
      · exact ⟨hstop.2, hstop.1, rfl, Or.inl hpres.1⟩
      · split
        · exact ⟨hstop.2, hstop.1, rfl, Or.inl hpres.1⟩
        · exact ⟨hstop.2, hstop.1, rfl, Or.inr hpres.2.2.2.2.1⟩

/-- C7: every pipeline failure — summarization failure, absent audio,
decode failure, conversion failure — leaves the system Idle, not loading,
with no attached source and the previous buffer discarded, ready for a
new pipeline run; no failure is process-fatal. -/
theorem c7_failure_leaves_idle (s : AppState) (env : SubmitEnv)
    (hu : trimString s.url ≠ "") (msg : String)
    (herr : (handleSubmit s env).1.error = some msg) :
    (handleSubmit s env).1.isPlaying = false ∧
      (handleSubmit s env).1.audioSource = none ∧
      (handleSubmit s env).1.audioBuffer = none ∧
      (handleSubmit s env).1.isLoading = false := by
  obtain ⟨h1, h2, h3, h4⟩ := handleSubmit_post s env hu
  rcases h4 with h4 | h4
  · exact ⟨h1, h2, h4, h3⟩
  · rw [h4] at herr
    exact Option.noConfusion herr

/-- Witness for C7 at the concrete failing-summarization run. -/
theorem c7_failure_leaves_idle_witness :
    trimString ({ initState with url := "u" } : AppState).url ≠ "" ∧
      (handleSubmit { initState with url := "u" } envSumFail).1.error =
        some "Failed to get summary from the article URL." ∧
      ((handleSubmit { initState with url := "u" } envSumFail).1.isPlaying =
          false ∧
        (handleSubmit { initState with url := "u" } envSumFail).1.audioSource =
          none ∧
        (handleSubmit { initState with url := "u" } envSumFail).1.audioBuffer =
          none ∧
        (handleSubmit { initState with url := "u" } envSumFail).1.isLoading =
          false) :=
  ⟨by decide, rfl,
    c7_failure_leaves_idle { initState with url := "u" } envSumFail
      (by decide) "Failed to get summary from the article URL." rfl⟩

/-- C8: when the speech collaborator reports an absent payload the
pipeline surfaces the distinct audio-generation failure and never invokes
the byte decoder or the PCM-to-sample converter. -/
theorem c8_absent_audio_failure (s : AppState) (env : SubmitEnv)
    (t : String) (hu : trimString s.url ≠ "")
    (hsum : env.summarizeApi = Except.ok t)
    (htts : env.ttsApi = Except.ok none) :
    (handleSubmit s env).1.error = some "Failed to generate audio." ∧
      Ev.decodeCall ∉ (handleSubmit s env).2 ∧
      Ev.decodeAudioCall ∉ (handleSubmit s env).2 := by
  have htr := stopPlayback_trace { s with
      isLoading := true
      error := none
      summary := ""
      audioBuffer := none }
  have hsumEq : summarizeArticleFromUrl env.summarizeApi = Except.ok t := by
    rw [hsum]
    rfl
  have hgenEq : generateSpeechFromText env.ttsApi = Except.ok none := by
    rw [htts]
    rfl
  unfold handleSubmit
  rw [if_neg hu]
  dsimp only
  rw [hsumEq, hgenEq]
  refine ⟨rfl, ?_, ?_⟩ <;>
    rcases htr with htr | ⟨id, htr⟩ <;> rw [htr] <;> simp

/-- Witness for C8 at the concrete absent-audio run. -/
theorem c8_absent_audio_failure_witness :
    trimString ({ initState with url := "u" } : AppState).url ≠ "" ∧
      envNoAudio.summarizeApi = Except.ok "t" ∧
      envNoAudio.ttsApi = Except.ok none ∧
      ((handleSubmit { initState with url := "u" } envNoAudio).1.error =
          some "Failed to generate audio." ∧
        Ev.decodeCall ∉ (handleSubmit { initState with url := "u" } envNoAudio).2 ∧
        Ev.decodeAudioCall ∉
          (handleSubmit { initState with url := "u" } envNoAudio).2) :=
  ⟨by decide, rfl, rfl,
    c8_absent_audio_failure { initState with url := "u" } envNoAudio "t"
      (by decide) rfl rfl⟩

/-- C10: a present-but-empty base64 payload is coerced to an absence
signal by `generateSpeechFromText`, so the pipeline reports the
audio-generation failure and decodes nothing. -/
theorem c10_empty_payload_reported_absent (s : AppState) (env : SubmitEnv)
    (t : String) (hu : trimString s.url ≠ "")
    (hsum : env.summarizeApi = Except.ok t)
    (htts : env.ttsApi = Except.ok (some "")) :
    generateSpeechFromText env.ttsApi = Except.ok none ∧
      (handleSubmit s env).1.error = some "Failed to generate audio." ∧
      (handleSubmit s env).1.audioBuffer = none ∧
      Ev.decodeCall ∉ (handleSubmit s env).2 := by
  have htr := stopPlayback_trace { s with
      isLoading := true
      error := none
      summary := ""
      audioBuffer := none }
  have hpres := stopPlayback_preserves { s with
      isLoading := true
      error := none
      summary := ""
      audioBuffer := none }
  have hsumEq : summarizeArticleFromUrl env.summarizeApi = Except.ok t := by
    rw [hsum]
    rfl
  have hgenEq : generateSpeechFromText env.ttsApi = Except.ok none := by
    rw [htts]
    simp [generateSpeechFromText]
  have hrun : handleSubmit s env =
      ({ (stopPlayback { s with
            isLoading := true
            error := none
            summary := ""
            audioBuffer := none }).1 with
          summary := t
          error := some "Failed to generate audio."
          isLoading := false },
        (stopPlayback { s with
            isLoading := true
            error := none
            summary := ""
            audioBuffer := none }).2) := by
    unfold handleSubmit
    rw [if_neg hu]
    dsimp only
    rw [hsumEq, hgenEq]
  refine ⟨hgenEq, ?_, ?_, ?_⟩
  · rw [hrun]
  · rw [hrun]
    exact hpres.1
  · rw [hrun]
    rcases htr with htr | ⟨id, htr⟩ <;> rw [htr] <;> simp

/-- Witness for C10 at the concrete empty-payload run. -/
theorem c10_empty_payload_reported_absent_witness :
    trimString ({ initState with url := "u" } : AppState).url ≠ "" ∧
      envEmptyAudio.summarizeApi = Except.ok "t" ∧
      envEmptyAudio.ttsApi = Except.ok (some "") ∧
      (generateSpeechFromText envEmptyAudio.ttsApi = Except.ok none ∧
        (handleSubmit { initState with url := "u" } envEmptyAudio).1.error =
          some "Failed to generate audio." ∧
        (handleSubmit { initState with url := "u" } envEmptyAudio).1.audioBuffer =
          none ∧
        Ev.decodeCall ∉
          (handleSubmit { initState with url := "u" } envEmptyAudio).2) :=
  ⟨by decide, rfl, rfl,
    c10_empty_payload_reported_absent { initState with url := "u" }
      envEmptyAudio "t" (by decide) rfl rfl⟩

end NewsAudio
